import Mathlib

/-!
Verification of the print-layout composition engine of the printing-kiosk
backend.  The repository contains several iterations of one function,
`processJob`:

* `src/unnamed/part_000`  — sRGB variant: single-A5 branch (`a5`/`fullA5`),
  two-A6 branch (`two4x6`/`twoA6`), default branch; applies
  `modulate({brightness: 1.10, saturation: 1.05})` before tagging.
* `src/server.js` (third block, lines 312-498) — AdobeRGB variant: a
  `two4x6` branch that always rotates and crop-fits, and a cover-fit
  default branch.
* `src/unnamed/part_001` — AdobeRGB variant with a fixed 50 px gap in its
  `two4x6` branch.

Images are embedded as terms of a free algebra `Img` of the sharp
operations the code invokes; pixel-level operations are constructors, so
two equal terms denote equal pixel buffers, and `dims` computes the sharp
output dimensions of each operation.  Rational arithmetic replaces the
floating-point arithmetic of the source (all quantities involved are small
exact rationals), and `jsRound` is the JavaScript `Math.round`
(round half toward positive infinity).
-/

/-- JavaScript `Math.round`: rounds half toward positive infinity. -/
def jsRound (q : ℚ) : ℤ := ⌊q + 1/2⌋

/-- Width and height of a raster, in pixels. -/
structure Dims where
  width : Nat
  height : Nat
  deriving DecidableEq, Repr

/-- Free algebra of the sharp image operations used by `processJob`.
Pixel-transforming operations are constructors, so equality of terms is
equality of the pixel buffers they denote.

* `src w h` — the decoded source image (`sharp(localFile)`).
* `rotate90` — `.rotate(90, { background: "white" })`.
* `extend t b l r` — `.extend({ top, bottom, left, right, background: "white" })`.
* `resizeContain w h` — `.resize(w, h, { fit: "contain", background: "white" })`.
* `resizeCover w h` — `.resize(w, h, { fit: "cover", position: "center" })`.
* `resizeFill w h` — `.resize(w, h, { fit: "fill", kernel: "lanczos3" })`.
* `resizeInside w h` — `.resize(w, h, { fit: "inside" })`.
* `modulate b s` — `.modulate({ brightness, saturation })`, percentages.
* `composite2 w h p t1 l1 t2 l2` — a white `w`×`h`, 3-channel canvas with
  the photo `p` composited at `(top := t1, left := l1)` and
  `(top := t2, left := l2)` (the source always composites the same
  resized photo twice). -/
inductive Img where
  | src : Nat → Nat → Img
  | rotate90 : Img → Img
  | extend : Nat → Nat → Nat → Nat → Img → Img
  | resizeContain : Nat → Nat → Img → Img
  | resizeCover : Nat → Nat → Img → Img
  | resizeFill : Nat → Nat → Img → Img
  | resizeInside : Nat → Nat → Img → Img
  | modulate : Nat → Nat → Img → Img
  | composite2 : Nat → Nat → Img → ℤ → ℤ → ℤ → ℤ → Img
  deriving DecidableEq, Repr

/-- Output dimensions of each sharp operation.  A resize with both `width`
and `height` and fit `contain`, `cover` or `fill` returns exactly the
requested dimensions; `extend` adds the four borders; `rotate90` swaps the
dimensions; `inside` scales to fit within the requested box preserving the
aspect; `modulate` is pixel-wise; compositing returns the canvas size. -/
def dims : Img → Dims
  | Img.src w h => ⟨w, h⟩
  | Img.rotate90 i => ⟨(dims i).height, (dims i).width⟩
  | Img.extend t b l r i => ⟨(dims i).width + l + r, (dims i).height + t + b⟩
  | Img.resizeContain w h _ => ⟨w, h⟩
  | Img.resizeCover w h _ => ⟨w, h⟩
  | Img.resizeFill w h _ => ⟨w, h⟩
  | Img.resizeInside w h i =>
      let d := dims i
      let s : ℚ := min ((w : ℚ) / (d.width : ℚ)) ((h : ℚ) / (d.height : ℚ))
      ⟨(jsRound ((d.width : ℚ) * s)).toNat, (jsRound ((d.height : ℚ) * s)).toNat⟩
  | Img.modulate _ _ i => dims i
  | Img.composite2 w h _ _ _ _ _ => ⟨w, h⟩

/-- Result of `.withMetadata({ icc, density })`: the same pixel buffer plus
embedded metadata only. -/
structure Tagged where
  image : Img
  icc : String
  density : Nat
  deriving DecidableEq, Repr

/-- Result of `.jpeg({ quality }).toFile(...)`: the encoder consumes the
tagged pixel buffer; `image` is the pixel data handed to the encoder. -/
structure Encoded where
  image : Img
  icc : String
  density : Nat
  quality : Nat
  deriving DecidableEq, Repr

/-- Model of `.withMetadata({ icc, density })`: attaches metadata, touches
no pixels (the image term is passed through unchanged). -/
def withMetadata (icc : String) (density : Nat) (i : Img) : Tagged :=
  ⟨i, icc, density⟩

/-- Model of `.jpeg({ quality }).toFile(...)`: deterministic encode of the
tagged buffer. -/
def jpegEncode (q : Nat) (t : Tagged) : Encoded :=
  ⟨t.image, t.icc, t.density, q⟩

/-- ICC profile path used by `src/unnamed/part_000` (line 94). -/
def srgbICC : String := "/usr/share/color/icc/sRGB.icc"

/-- ICC profile path used by `src/server.js` (line 333) and
`src/unnamed/part_001` (line 88). -/
def adobeICC : String := "/usr/share/color/icc/AdobeRGB1998.icc"

/-- Layout identifier literals recognised by the dispatch code. -/
def lytA5 : String := "a5"

/-- Layout identifier literal "fullA5". -/
def lytFullA5 : String := "fullA5"

/-- Layout identifier literal "two4x6". -/
def lytTwo4x6 : String := "two4x6"

/-- Layout identifier literal "twoA6". -/
def lytTwoA6 : String := "twoA6"

/-- Padding computation of `src/unnamed/part_000`, lines 131-152 (single-A5
branch, target 2/3) and lines 198-215 (two-A6 branch, target 3/2).  The
code is identical in both branches:

    if (Math.abs(newRatio - targetRatio) > 0.01) {
      let newWidth = newMeta.width;
      let newHeight = newMeta.height;
      if (newRatio > targetRatio) newHeight = Math.round(newMeta.width / targetRatio);
      else newWidth = Math.round(newMeta.height * targetRatio);
      const padX = Math.max(0, Math.round((newWidth - newMeta.width) / 2));
      const padY = Math.max(0, Math.round((newHeight - newMeta.height) / 2));
      ... .extend({ top: padY, bottom: padY, left: padX, right: padX, ... })
    }

`newW`/`newH` are the computed target dimensions; `padX` is added on both
the left and the right, `padY` on both the top and the bottom. -/
structure PadPlan where
  applied : Bool
  newW : ℤ
  newH : ℤ
  padX : ℤ
  padY : ℤ
  deriving DecidableEq, Repr

/-- The pad computation itself (see `PadPlan`). -/
def padPlan (w h : Nat) (target : ℚ) : PadPlan :=
  let nr : ℚ := (w : ℚ) / (h : ℚ)
  if |nr - target| > 1/100 then
    let nW : ℤ := if nr > target then (w : ℤ) else jsRound ((h : ℚ) * target)
    let nH : ℤ := if nr > target then jsRound ((w : ℚ) / target) else (h : ℤ)
    { applied := true, newW := nW, newH := nH,
      padX := max 0 (jsRound (((nW : ℚ) - (w : ℚ)) / 2)),
      padY := max 0 (jsRound (((nH : ℚ) - (h : ℚ)) / 2)) }
  else
    { applied := false, newW := (w : ℤ), newH := (h : ℤ), padX := 0, padY := 0 }

/-- The `.extend(...)` call guarded by the ratio-tolerance check: the same
pad is applied to both opposite sides. -/
def applyPad (i : Img) (p : PadPlan) : Img :=
  if p.applied then Img.extend p.padY.toNat p.padY.toNat p.padX.toNat p.padX.toNat i
  else i

namespace Part000

/-- Rotation decision of the single-A5 branch, `src/unnamed/part_000`
line 118: `if (ratio > 1.0)` with `ratio = metadata.width / metadata.height`
(target orientation portrait). -/
def a5Rotates (w h : Nat) : Bool := decide ((w : ℚ) / (h : ℚ) > 1)

/-- Rotation decision of the two-A6 branch, `src/unnamed/part_000`
line 189: `if (ratio < 1.0)` (target orientation landscape). -/
def twoRotates (w h : Nat) : Bool := decide ((w : ℚ) / (h : ℚ) < 1)

/-- Orientation step of the single-A5 branch (lines 114-122). -/
def a5Norm (i : Img) : Img :=
  if a5Rotates (dims i).width (dims i).height then Img.rotate90 i else i

/-- Pad plan of the single-A5 branch (lines 124-152), computed on the
possibly rotated buffer against target ratio 2/3. -/
def a5Pad (i : Img) : PadPlan :=
  padPlan (dims (a5Norm i)).width (dims (a5Norm i)).height (2/3)

/-- Pixel pipeline of the single-A5 branch up to (but excluding) the
`withMetadata` tagging call, lines 114-164: orient, pad, resize-contain to
1748 by 2480, then `modulate({brightness: 1.10, saturation: 1.05})`. -/
def a5PreTag (i : Img) : Img :=
  Img.modulate 110 105 (Img.resizeContain 1748 2480 (applyPad (a5Norm i) (a5Pad i)))

/-- Full single-A5 branch including tagging and encoding, lines 114-167:
`...modulate(...).withMetadata({ icc: srgbICC, density: 300 }).jpeg({ quality: 95 })`. -/
def a5Encoded (i : Img) : Encoded :=
  jpegEncode 95 (withMetadata srgbICC 300
    (Img.modulate 110 105 (Img.resizeContain 1748 2480 (applyPad (a5Norm i) (a5Pad i)))))

/-- Orientation step of the two-A6 branch (lines 186-193). -/
def twoNorm (i : Img) : Img :=
  if twoRotates (dims i).width (dims i).height then Img.rotate90 i else i

/-- Pad plan of the two-A6 branch (lines 194-219), target ratio 3/2. -/
def twoPad (i : Img) : PadPlan :=
  padPlan (dims (twoNorm i)).width (dims (twoNorm i)).height (3/2)

/-- Pixel pipeline of the two-A6 branch up to the tagging call, lines
183-242: orient, pad, resize-contain to 1748 by 1240, composite the photo
twice on a white 1748 by 2480 canvas at tops 0 and 1240 (`firstPhotoTop = 0`,
`secondPhotoTop = photoHeight`, lines 225-226), then modulate. -/
def twoPreTag (i : Img) : Img :=
  Img.modulate 110 105
    (Img.composite2 1748 2480
      (Img.resizeContain 1748 1240 (applyPad (twoNorm i) (twoPad i))) 0 0 1240 0)

/-- Full two-A6 branch including tagging and encoding, lines 183-245. -/
def twoEncoded (i : Img) : Encoded :=
  jpegEncode 95 (withMetadata srgbICC 300
    (Img.modulate 110 105
      (Img.composite2 1748 2480
        (Img.resizeContain 1748 1240 (applyPad (twoNorm i) (twoPad i))) 0 0 1240 0)))

/-- Pixel pipeline of the default branch up to the tagging call, lines
264-271: a single resize-contain of the raw source to 1748 by 2480, then
modulate; no rotation and no padding. -/
def defaultPreTag (i : Img) : Img :=
  Img.modulate 110 105 (Img.resizeContain 1748 2480 i)

/-- Full default branch including tagging and encoding, lines 264-274. -/
def defaultEncoded (i : Img) : Encoded :=
  jpegEncode 95 (withMetadata srgbICC 300
    (Img.modulate 110 105 (Img.resizeContain 1748 2480 i)))

/-- Layout dispatch of `src/unnamed/part_000` (lines 104, 175, 264),
pipeline state immediately before the tagging call. -/
def preTagOf (layout : String) (i : Img) : Img :=
  if layout = lytA5 ∨ layout = lytFullA5 then a5PreTag i
  else if layout = lytTwo4x6 ∨ layout = lytTwoA6 then twoPreTag i
  else defaultPreTag i

/-- Layout dispatch of `src/unnamed/part_000`, full encoded artifact. -/
def encodedOf (layout : String) (i : Img) : Encoded :=
  if layout = lytA5 ∨ layout = lytFullA5 then a5Encoded i
  else if layout = lytTwo4x6 ∨ layout = lytTwoA6 then twoEncoded i
  else defaultEncoded i

/-- Slot plan of the two-A6 branch for a source of the given term:
`photoWidth = 1748`, `photoHeight = 1240`, `firstPhotoTop = 0`,
`secondPhotoTop = photoHeight` on the 2480 px canvas
(`src/unnamed/part_000` lines 177-180 and 224-226). -/
structure TwoPlan where
  rotated : Bool
  photoWidth : Nat
  photoHeight : Nat
  firstPhotoTop : Nat
  secondPhotoTop : Nat
  canvasH : Nat
  deriving DecidableEq, Repr

/-- The two-A6 slot plan computed by `src/unnamed/part_000`. -/
def twoPlan (i : Img) : TwoPlan :=
  { rotated := twoRotates (dims i).width (dims i).height,
    photoWidth := 1748, photoHeight := 1240,
    firstPhotoTop := 0, secondPhotoTop := 1240, canvasH := 2480 }

end Part000

/-- Vertical gap between the bottom edge of the first slot and the top
edge of the second slot of a stacked two-slot plan. -/
def interSlotGap (p : Part000.TwoPlan) : Nat :=
  p.secondPhotoTop - (p.firstPhotoTop + p.photoHeight)

namespace ServerJs

/-- Photo width of the `two4x6` branch of `src/server.js`, line 349. -/
def photoWidth : Nat := 1748

/-- Photo height, line 350: `Math.round(photoWidth * 2 / 3)`. -/
def photoHeight : ℤ := jsRound ((1748 : ℚ) * 2 / 3)

/-- Vertical gap, line 401:
`Math.max(1, Math.round((canvasHeight - photoHeight * 2) / 3))`. -/
def gap : ℤ := max 1 (jsRound (((2480 : ℚ) - (photoHeight : ℚ) * 2) / 3))

/-- Top offset of the first photo, line 403. -/
def firstPhotoTop : ℤ := gap

/-- Top offset of the second photo, line 404: `gap * 2 + photoHeight`. -/
def secondPhotoTop : ℤ := gap * 2 + photoHeight

/-- Rotation decision of the `two4x6` branch of `src/server.js`, lines
358-361: the source is always rotated 90 degrees, with no condition on the
aspect of the input. -/
def two4x6Rotates (_w _h : Nat) : Bool := true

/-- Full `two4x6` branch of `src/server.js`, lines 341-430: unconditional
rotation, cover-crop resize to 1748 by `photoHeight`, a clamp to exact
dimensions when the resize drifted (lines 378-391), then the two-slot
composite tagged with the Adobe profile and 300 DPI and encoded at
quality 95. -/
def twoEncoded (i : Img) : Encoded :=
  let resized : Img := Img.resizeCover 1748 photoHeight.toNat (Img.rotate90 i)
  let rd := dims resized
  let final : Img :=
    if rd.width ≠ 1748 ∨ rd.height ≠ photoHeight.toNat then
      Img.resizeFill 1748 photoHeight.toNat resized
    else resized
  jpegEncode 95 (withMetadata adobeICC 300
    (Img.composite2 1748 2480 final firstPhotoTop 0 secondPhotoTop 0))

/-- Layout dispatch of `src/server.js` (lines 341 and 433): only the
literal `two4x6` selects the two-slot branch; every other layout value
takes the default branch, a single `.resize(1748, 2480, { fit: "cover" })`
of the raw source (lines 435-439). -/
def encodedOf (layout : String) (i : Img) : Encoded :=
  if layout = lytTwo4x6 then twoEncoded i
  else jpegEncode 95 (withMetadata adobeICC 300 (Img.resizeCover 1748 2480 i))

end ServerJs

namespace Part001

/-- Fixed vertical gap of the `two4x6` branch of `src/unnamed/part_001`,
line 122: `const gap = 50`. -/
def gap : ℤ := 50

/-- Slot height, line 123:
`Math.round((canvasHeight - gap * 3) / 2 + 50)`. -/
def availableHeightPerPhoto : ℤ :=
  jsRound (((2480 : ℚ) - (gap : ℚ) * 3) / 2 + 50)

/-- Top edge of the first slot (line 163 with a zero centering offset):
`gap`. -/
def firstSlotTop : ℤ := gap

/-- Top edge of the second slot (line 166 with a zero centering offset):
`gap * 2 + availableHeightPerPhoto`. -/
def secondSlotTop : ℤ := gap * 2 + availableHeightPerPhoto

/-- Full `two4x6` branch of `src/unnamed/part_001`, lines 96-187:
unconditional rotation (lines 111-113), scale-to-fit computation against
the slot box (lines 128-136), inside-fit resize, centering offsets from
the actual resized dimensions (lines 152-166), then the two-slot composite
tagged with the Adobe profile and encoded at quality 95. -/
def twoEncoded (i : Img) : Encoded :=
  let d := dims i
  let rotatedW : Nat := d.height
  let rotatedH : Nat := d.width
  let scale : ℚ :=
    min ((1748 : ℚ) / (rotatedW : ℚ)) ((availableHeightPerPhoto : ℚ) / (rotatedH : ℚ))
  let finalW : ℤ := jsRound ((rotatedW : ℚ) * scale)
  let finalH : ℤ := jsRound ((rotatedH : ℚ) * scale)
  let resized : Img := Img.resizeInside finalW.toNat finalH.toNat (Img.rotate90 i)
  let ad := dims resized
  let leftOffset : ℤ := jsRound (((1748 : ℚ) - (ad.width : ℚ)) / 2)
  let topOffsetInSlot : ℤ :=
    jsRound (((availableHeightPerPhoto : ℚ) - (ad.height : ℚ)) / 2)
  jpegEncode 95 (withMetadata adobeICC 300
    (Img.composite2 1748 2480 resized
      (gap + topOffsetInSlot) leftOffset
      (gap * 2 + availableHeightPerPhoto + topOffsetInSlot) leftOffset))

/-- Layout dispatch of `src/unnamed/part_001` (lines 96 and 188): only the
literal `two4x6` selects the two-slot branch; every other layout value
takes the default branch, a single `.resize(1748, 2480, { fit: "cover" })`
of the raw source (lines 190-194). -/
def encodedOf (layout : String) (i : Img) : Encoded :=
  if layout = lytTwo4x6 then twoEncoded i
  else jpegEncode 95 (withMetadata adobeICC 300 (Img.resizeCover 1748 2480 i))

end Part001

/-- Processing stages of the sharp block inside `processJob`, as named by
the specification (decode, rotation, padding, resize, compositing,
tagging, encode). -/
inductive Stage where
  | decode
  | rotation
  | padding
  | resize
  | compositing
  | tagging
  | encode
  deriving DecidableEq, Repr

/-- Runs a list of stages given an oracle saying which stages raise; the
whole block aborts at the first raising stage, exactly as a thrown
exception aborts the `try` block of the source. -/
def runStages (fails : Stage → Bool) : List Stage → Except Stage Unit
  | [] => Except.ok ()
  | s :: rest => if fails s = true then Except.error s else runStages fails rest

/-- Whether the stage block ran to completion. -/
def exceptOk : Except Stage Unit → Bool
  | Except.ok _ => true
  | Except.error _ => false

/-- Terminal Firestore status written by `processJob`: `completed` on
success of the print step, `failed` when the outer catch runs
(`src/unnamed/part_000` lines 299-333). -/
inductive JobStatus where
  | completed
  | failed
  deriving DecidableEq, Repr

/-- Observable outcome of one modelled `processJob` invocation. -/
structure JobResult where
  localFile : String
  processedFile : String
  processedWritten : Bool
  printTarget : String
  status : JobStatus
  deriving DecidableEq, Repr

/-- JavaScript `a || b` on strings: the empty string is the only falsy
string, so a non-empty `a` is always selected. -/
def jsOrElse (a b : String) : String := if a = "" then b else a

namespace Part000

/-- Path of the downloaded source file, `src/unnamed/part_000` line 76:
`path.join("/tmp", Date.now() + "-" + job.fileName)` (the timestamp is the
model parameter `ts`). -/
def localPath (ts : Nat) (name : String) : String :=
  "/tmp/" ++ toString ts ++ "-" ++ name

/-- Path of the processed artifact, line 96:
`path.join("/tmp", "processed-" + Date.now() + "-" + job.fileName)`. -/
def processedPath (ts : Nat) (name : String) : String :=
  "/tmp/processed-" ++ toString ts ++ "-" ++ name

/-- Ordered stages executed by the sharp block of `src/unnamed/part_000`
for a given layout and source image: rotation and padding run only when
their guards fire, compositing only in the two-slot branch; every branch
ends with tagging and the encode-to-file step. -/
def stagesOf (layout : String) (i : Img) : List Stage :=
  if layout = lytA5 ∨ layout = lytFullA5 then
    [Stage.decode]
      ++ (if a5Rotates (dims i).width (dims i).height then [Stage.rotation] else [])
      ++ (if (a5Pad i).applied then [Stage.padding] else [])
      ++ [Stage.resize, Stage.tagging, Stage.encode]
  else if layout = lytTwo4x6 ∨ layout = lytTwoA6 then
    [Stage.decode]
      ++ (if twoRotates (dims i).width (dims i).height then [Stage.rotation] else [])
      ++ (if (twoPad i).applied then [Stage.padding] else [])
      ++ [Stage.resize, Stage.compositing, Stage.tagging, Stage.encode]
  else
    [Stage.decode, Stage.resize, Stage.tagging, Stage.encode]

/-- Control-flow model of `processJob` in `src/unnamed/part_000` (lines
73-334); `src/server.js` lines 312-498 has the identical structure.  The
sharp block runs inside an inner `try`; its exceptions are caught at line
280 and only logged.  The print command (line 288) receives
`processedFile || localFile`; `processedFile` is the non-empty path string
assigned at line 96, so the JavaScript or-expression always selects it.
The external `lp` print step succeeds only when the target path names an
existing file: the downloaded source always exists, the processed file
exists only when the sharp block ran to completion.  A failing print
rejects the promise and the outer catch marks the job `failed`. -/
def processJobModel (fails : Stage → Bool) (ts : Nat) (name layout : String)
    (i : Img) : JobResult :=
  let lf := localPath ts name
  let pf := processedPath ts name
  let written := exceptOk (runStages fails (stagesOf layout i))
  let target := jsOrElse pf lf
  let printOk := (target == lf) || ((target == pf) && written)
  { localFile := lf, processedFile := pf, processedWritten := written,
    printTarget := target,
    status := if printOk = true then JobStatus.completed else JobStatus.failed }

/-- Output artifact of a successful `src/unnamed/part_000` job: the
timestamped processed path plus the encoded data.  The timestamp enters
the path only; the encoded data is a function of the source image and the
layout alone. -/
structure Artifact where
  path : String
  data : Encoded
  deriving DecidableEq, Repr

/-- One successful pipeline run of `src/unnamed/part_000`. -/
def runArtifact (ts : Nat) (name layout : String) (i : Img) : Artifact :=
  ⟨processedPath ts name, encodedOf layout i⟩

end Part000

namespace ServerJs

/-- One successful pipeline run of `src/server.js` (paths built the same
way, lines 315 and 335). -/
def runArtifact (ts : Nat) (name layout : String) (i : Img) : Part000.Artifact :=
  ⟨Part000.processedPath ts name, encodedOf layout i⟩

end ServerJs

/-! ## Helper lemmas -/

theorem runStages_not_ok (fails : Stage → Bool) (l : List Stage) (s : Stage)
    (hs : s ∈ l) (hf : fails s = true) : exceptOk (runStages fails l) = false := by
  induction l with
  | nil => cases hs
  | cons a rest ih =>
    simp only [runStages]
    by_cases ha : fails a = true
    · rw [if_pos ha]; rfl
    · rw [if_neg ha]
      rcases List.mem_cons.mp hs with rfl | hmem
      · exact absurd hf ha
      · exact ih hmem

theorem decode_mem_stagesOf (layout : String) (i : Img) :
    Stage.decode ∈ Part000.stagesOf layout i := by
  unfold Part000.stagesOf
  split
  · simp [List.mem_append]
  · split
    · simp [List.mem_append]
    · simp

theorem encode_mem_stagesOf (layout : String) (i : Img) :
    Stage.encode ∈ Part000.stagesOf layout i := by
  unfold Part000.stagesOf
  split
  · simp [List.mem_append]
  · split
    · simp [List.mem_append]
    · simp

theorem processedPath_ne_empty (ts : Nat) (name : String) :
    Part000.processedPath ts name ≠ "" := by
  intro h
  have hlen := congrArg String.length h
  simp only [Part000.processedPath, String.length_append] at hlen
  have h15 : ("/tmp/processed-" : String).length = 15 := by decide
  have h0 : ("" : String).length = 0 := by decide
  rw [h15, h0] at hlen
  omega

theorem processedPath_ne_localPath (ts : Nat) (name : String) :
    Part000.processedPath ts name ≠ Part000.localPath ts name := by
  intro h
  have hlen := congrArg String.length h
  simp only [Part000.processedPath, Part000.localPath, String.length_append] at hlen
  have h15 : ("/tmp/processed-" : String).length = 15 := by decide
  have h5 : ("/tmp/" : String).length = 5 := by decide
  rw [h15, h5] at hlen
  omega

/-- Shared fallout of any stage failure inside the sharp block of
`src/unnamed/part_000`: the inner catch swallows the error, the processed
file is never written, yet the print command still receives the processed
path (because `processedFile || localFile` always selects the non-empty
`processedFile` string), so the print step fails and the job is marked
`failed`. -/
theorem stage_failure_result (fails : Stage → Bool) (ts : Nat)
    (name layout : String) (i : Img) (s : Stage)
    (hs : s ∈ Part000.stagesOf layout i) (hf : fails s = true) :
    (Part000.processJobModel fails ts name layout i).printTarget
      = Part000.processedPath ts name ∧
    (Part000.processJobModel fails ts name layout i).printTarget
      ≠ Part000.localPath ts name ∧
    (Part000.processJobModel fails ts name layout i).processedWritten = false ∧
    (Part000.processJobModel fails ts name layout i).status = JobStatus.failed := by
  have hw : exceptOk (runStages fails (Part000.stagesOf layout i)) = false :=
    runStages_not_ok fails _ s hs hf
  have hne : Part000.processedPath ts name ≠ "" := processedPath_ne_empty ts name
  have hne2 : Part000.processedPath ts name ≠ Part000.localPath ts name :=
    processedPath_ne_localPath ts name
  have hbeq : (Part000.processedPath ts name == Part000.localPath ts name) = false :=
    beq_eq_false_iff_ne.mpr hne2
  unfold Part000.processJobModel
  simp only [jsOrElse, if_neg hne, hw, hbeq, Bool.and_false, Bool.or_false]
  exact ⟨trivial, hne2, trivial, rfl⟩

/-! ## Claim theorems -/

/-- Oracle of a job whose decode stage raises (an unreadable or corrupt
source image): exactly the decode stage fails. -/
def failDecode : Stage → Bool := fun s => s == Stage.decode

/-- File name of the concrete failing job used below. -/
def jobFile : String := "photo.jpg"

/-- C1 (code bug): evaluation of the model at a failing input.  For a job
with layout `a5` whose decode stage raises, the print command receives the
processed path, which was never written, not the original local file, and
the job ends `failed`.  The source intends the opposite (its own log line
says "using original file instead"), but `processedFile || localFile` at
line 288 of `src/unnamed/part_000` always selects the non-empty
`processedFile` string. -/
theorem claim1_stage_failure_prints_unwritten_processed_path :
    (Part000.processJobModel failDecode 7 jobFile lytA5 (Img.src 100 50)).printTarget
      = Part000.processedPath 7 jobFile ∧
    (Part000.processJobModel failDecode 7 jobFile lytA5 (Img.src 100 50)).printTarget
      ≠ Part000.localPath 7 jobFile ∧
    (Part000.processJobModel failDecode 7 jobFile lytA5 (Img.src 100 50)).processedWritten
      = false ∧
    (Part000.processJobModel failDecode 7 jobFile lytA5 (Img.src 100 50)).status
      = JobStatus.failed :=
  stage_failure_result failDecode 7 jobFile lytA5 (Img.src 100 50) Stage.decode
    (decode_mem_stagesOf lytA5 (Img.src 100 50)) rfl

/-- C2: when the encode-to-file step raises, no processed artifact exists,
the pipeline does not divert to any other file (the print target is still
the intended processed path), and the job is recorded as a failure. -/
theorem claim2_encode_failure_is_job_failure (fails : Stage → Bool) (ts : Nat)
    (name layout : String) (i : Img) (henc : fails Stage.encode = true) :
    (Part000.processJobModel fails ts name layout i).status = JobStatus.failed ∧
    (Part000.processJobModel fails ts name layout i).printTarget
      = Part000.processedPath ts name ∧
    (Part000.processJobModel fails ts name layout i).processedWritten = false := by
  have h := stage_failure_result fails ts name layout i Stage.encode
    (encode_mem_stagesOf layout i) henc
  exact ⟨h.2.2.2, h.1, h.2.2.1⟩

/-- Witness for C2: a concrete job whose encode stage raises is marked
failed with no processed artifact written. -/
theorem claim2_encode_failure_is_job_failure_witness :
    ((fun s => s == Stage.encode) Stage.encode = true) ∧
    ((Part000.processJobModel (fun s => s == Stage.encode) 3 jobFile lytA5
        (Img.src 100 50)).status = JobStatus.failed ∧
      (Part000.processJobModel (fun s => s == Stage.encode) 3 jobFile lytA5
        (Img.src 100 50)).printTarget = Part000.processedPath 3 jobFile ∧
      (Part000.processJobModel (fun s => s == Stage.encode) 3 jobFile lytA5
        (Img.src 100 50)).processedWritten = false) :=
  ⟨rfl, claim2_encode_failure_is_job_failure (fun s => s == Stage.encode) 3 jobFile
    lytA5 (Img.src 100 50) rfl⟩

/-- C3 (code bug): evaluation of the `src/unnamed/part_001` two-slot
geometry.  The slot grid is input-independent: gap 50, slot height
`round((2480 - 150) / 2 + 50) = 1215`, second slot top `1315`.  The second
slot therefore ends at 2530, overflowing the 2480 px canvas, and
`gap * (slotCount + 1) + slotHeight * slotCount = 2580 > 2480`. -/
theorem claim3_part001_second_slot_overflows_canvas :
    Part001.availableHeightPerPhoto = 1215 ∧
    Part001.firstSlotTop = 50 ∧
    Part001.secondSlotTop = 1315 ∧
    Part001.secondSlotTop + Part001.availableHeightPerPhoto = 2530 ∧
    ¬(Part001.secondSlotTop + Part001.availableHeightPerPhoto ≤ 2480) ∧
    Part001.gap * 3 + Part001.availableHeightPerPhoto * 2 = 2580 ∧
    ¬(Part001.gap * 3 + Part001.availableHeightPerPhoto * 2 ≤ 2480) := by
  have h : Part001.availableHeightPerPhoto = 1215 := by
    unfold Part001.availableHeightPerPhoto Part001.gap jsRound
    norm_num [Int.floor_eq_iff]
  refine ⟨h, rfl, ?_, ?_, ?_, ?_, ?_⟩ <;>
    simp only [Part001.secondSlotTop, Part001.gap, h] <;> decide

/-- C4: in every branch of `src/unnamed/part_000`, the pixel term handed
to the JPEG encoder is exactly the pipeline state immediately before the
`withMetadata` call, and the tagging step contributes only the sRGB
profile reference and the 300 DPI density (plus the encode quality 95):
no pixel-level operation happens at or after tagging. -/
theorem claim4_tagging_preserves_pixels (layout : String) (i : Img) :
    (Part000.encodedOf layout i).image = Part000.preTagOf layout i ∧
    (Part000.encodedOf layout i).icc = srgbICC ∧
    (Part000.encodedOf layout i).density = 300 ∧
    (Part000.encodedOf layout i).quality = 95 := by
  by_cases h1 : layout = lytA5 ∨ layout = lytFullA5
  · simp only [Part000.encodedOf, Part000.preTagOf, if_pos h1]
    exact ⟨rfl, rfl, rfl, rfl⟩
  · by_cases h2 : layout = lytTwo4x6 ∨ layout = lytTwoA6
    · simp only [Part000.encodedOf, Part000.preTagOf, if_neg h1, if_pos h2]
      exact ⟨rfl, rfl, rfl, rfl⟩
    · simp only [Part000.encodedOf, Part000.preTagOf, if_neg h1, if_neg h2]
      exact ⟨rfl, rfl, rfl, rfl⟩

/-- Rotation condition stated by the specification (written from its
words, for comparison with the code): rotate iff the target class is
portrait and the aspect exceeds 1, or the target class is landscape and
the aspect is below 1. -/
def specRotates (portraitTarget : Bool) (w h : Nat) : Bool :=
  if portraitTarget then decide ((w : ℚ) / (h : ℚ) > 1)
  else decide ((w : ℚ) / (h : ℚ) < 1)

/-- C6 counterexample: the `two4x6` branch of `src/server.js` rotates a
3:2 landscape input although its target class is landscape and the aspect
exceeds 1, where the claim requires no rotation. -/
theorem claim6_counterexample_serverjs_rotates_landscape :
    ServerJs.two4x6Rotates 3 2 = true ∧ specRotates false 3 2 = false := by
  constructor
  · rfl
  · have h : ¬((3 : ℚ) / (2 : ℚ) < 1) := by norm_num
    simp [specRotates, h]

/-- C6 amended: in `src/unnamed/part_000` both branches rotate exactly
under the claimed condition (portrait target: aspect above 1; landscape
target: aspect below 1; in particular no rotation at aspect exactly 1),
while the `two4x6` branch of `src/server.js` rotates unconditionally. -/
theorem claim6_amended_rotation_policy (w h : Nat) :
    Part000.a5Rotates w h = specRotates true w h ∧
    Part000.twoRotates w h = specRotates false w h ∧
    ServerJs.two4x6Rotates w h = true := by
  refine ⟨?_, ?_, rfl⟩ <;> simp [Part000.a5Rotates, Part000.twoRotates, specRotates]

/-- C7 counterexample: for a 3600 by 2400 source under the `two4x6`
branch of `src/unnamed/part_000`, no rotation is applied but the two
slots are stacked contiguously (tops 0 and 1240): the computed vertical
gap is 0, not strictly positive as the claim requires. -/
theorem claim7_counterexample_part000_gap_is_zero :
    (Part000.twoPlan (Img.src 3600 2400)).rotated = false ∧
    interSlotGap (Part000.twoPlan (Img.src 3600 2400)) = 0 ∧
    ¬ 0 < interSlotGap (Part000.twoPlan (Img.src 3600 2400)) := by
  refine ⟨?_, rfl, by decide⟩
  have h : ¬((3600 : ℚ) / (2400 : ℚ) < 1) := by norm_num
  simp [Part000.twoPlan, Part000.twoRotates, dims, h]

/-- C7 amended: for the 3600 by 2400 (3:2) landscape input under
`two4x6`, `src/unnamed/part_000` applies no rotation and no padding and
stacks two identical 1748 by 1240 slots contiguously — slot heights plus
gaps total exactly 2480 with gap 0; the `src/server.js` variant has a
strictly positive gap of 50 with `2 * 1165 + 3 * 50 = 2480`, but always
rotates the input. -/
theorem claim7_amended_two4x6_plans :
    (Part000.twoPlan (Img.src 3600 2400)).rotated = false ∧
    (Part000.twoPad (Img.src 3600 2400)).applied = false ∧
    (Part000.twoPlan (Img.src 3600 2400)).firstPhotoTop = 0 ∧
    (Part000.twoPlan (Img.src 3600 2400)).secondPhotoTop = 1240 ∧
    (Part000.twoPlan (Img.src 3600 2400)).photoHeight * 2
        + interSlotGap (Part000.twoPlan (Img.src 3600 2400)) = 2480 ∧
    (Part000.twoPlan (Img.src 3600 2400)).secondPhotoTop
        + (Part000.twoPlan (Img.src 3600 2400)).photoHeight
      = (Part000.twoPlan (Img.src 3600 2400)).canvasH ∧
    ServerJs.photoHeight = 1165 ∧
    ServerJs.gap = 50 ∧
    0 < ServerJs.gap ∧
    ServerJs.secondPhotoTop + ServerJs.photoHeight = 2430 ∧
    ServerJs.photoHeight * 2 + ServerJs.gap * 3 = 2480 ∧
    ServerJs.two4x6Rotates 3600 2400 = true := by
  have hrot : ¬((3600 : ℚ) / (2400 : ℚ) < 1) := by norm_num
  have hph : ServerJs.photoHeight = 1165 := by
    unfold ServerJs.photoHeight jsRound
    norm_num [Int.floor_eq_iff]
  have hgap : ServerJs.gap = 50 := by
    unfold ServerJs.gap jsRound
    rw [hph]
    norm_num [Int.floor_eq_iff]
  refine ⟨?_, ?_, rfl, rfl, rfl, rfl, hph, hgap, ?_, ?_, ?_, rfl⟩
  · simp [Part000.twoPlan, Part000.twoRotates, dims, hrot]
  · unfold Part000.twoPad Part000.twoNorm Part000.twoRotates
    norm_num [dims, padPlan]
  · rw [hgap]; decide
  · rw [ServerJs.secondPhotoTop, hgap, hph]; decide
  · rw [hph, hgap]; decide

/-- C8: for every layout identifier and every source with positive
dimensions, the encoded artifact of `src/unnamed/part_000` measures
exactly 1748 by 2480 pixels. -/
theorem claim8_output_canvas_dims (layout : String) (i : Img)
    (_hw : 0 < (dims i).width) (_hh : 0 < (dims i).height) :
    dims (Part000.encodedOf layout i).image = ⟨1748, 2480⟩ := by
  by_cases h1 : layout = lytA5 ∨ layout = lytFullA5
  · simp [Part000.encodedOf, if_pos h1, Part000.a5Encoded, jpegEncode,
      withMetadata, dims]
  · by_cases h2 : layout = lytTwo4x6 ∨ layout = lytTwoA6
    · simp [Part000.encodedOf, if_neg h1, if_pos h2, Part000.twoEncoded,
        jpegEncode, withMetadata, dims]
    · simp [Part000.encodedOf, if_neg h1, if_neg h2, Part000.defaultEncoded,
        jpegEncode, withMetadata, dims]

/-- Witness for C8: a 4000 by 3000 source under layout `a5` yields a
1748 by 2480 artifact. -/
theorem claim8_output_canvas_dims_witness :
    0 < (dims (Img.src 4000 3000)).width ∧
    0 < (dims (Img.src 4000 3000)).height ∧
    dims (Part000.encodedOf lytA5 (Img.src 4000 3000)).image = ⟨1748, 2480⟩ :=
  ⟨by simp [dims], by simp [dims],
    claim8_output_canvas_dims lytA5 (Img.src 4000 3000)
      (by simp [dims]) (by simp [dims])⟩

/-- C9: the encoded artifact data is a function of the source image term
and the layout identifier alone; the ambient timestamp (the one source of
nondeterminism, `Date.now()`) enters only the file paths.  Two runs on
identical inputs produce identical artifact data in both
`src/unnamed/part_000` and `src/server.js`. -/
theorem claim9_artifact_data_deterministic (t1 t2 : Nat) (name layout : String)
    (i : Img) :
    (Part000.runArtifact t1 name layout i).data
      = (Part000.runArtifact t2 name layout i).data ∧
    (ServerJs.runArtifact t1 name layout i).data
      = (ServerJs.runArtifact t2 name layout i).data :=
  ⟨rfl, rfl⟩

/-- C10: any layout identifier other than the four recognised literals
takes the default branch in all three variants: a single direct resize of
the raw source to 1748 by 2480, with no rotation and no padding before
it (contain fit in `src/unnamed/part_000`, cover fit in `src/server.js`
and `src/unnamed/part_001`). -/
theorem claim10_unknown_layout_single_resize (layout : String) (i : Img)
    (h1 : layout ≠ lytA5) (h2 : layout ≠ lytFullA5)
    (h3 : layout ≠ lytTwo4x6) (h4 : layout ≠ lytTwoA6) :
    Part000.preTagOf layout i
      = Img.modulate 110 105 (Img.resizeContain 1748 2480 i) ∧
    ServerJs.encodedOf layout i
      = jpegEncode 95 (withMetadata adobeICC 300 (Img.resizeCover 1748 2480 i)) ∧
    Part001.encodedOf layout i
      = jpegEncode 95 (withMetadata adobeICC 300 (Img.resizeCover 1748 2480 i)) := by
  refine ⟨?_, ?_, ?_⟩
  · simp [Part000.preTagOf, h1, h2, h3, h4, Part000.defaultPreTag]
  · simp [ServerJs.encodedOf, h3]
  · simp [Part001.encodedOf, h3]

/-- Layout identifier not recognised by any dispatch branch, used as the
witness input for C10. -/
def lytOther : String := "poster"

/-- Witness for C10: the layout `poster` is none of the four recognised
identifiers and takes the single-resize default branch everywhere. -/
theorem claim10_unknown_layout_single_resize_witness :
    lytOther ≠ lytA5 ∧ lytOther ≠ lytFullA5 ∧ lytOther ≠ lytTwo4x6 ∧
    lytOther ≠ lytTwoA6 ∧
    (Part000.preTagOf lytOther (Img.src 9 9)
        = Img.modulate 110 105 (Img.resizeContain 1748 2480 (Img.src 9 9)) ∧
      ServerJs.encodedOf lytOther (Img.src 9 9)
        = jpegEncode 95 (withMetadata adobeICC 300
            (Img.resizeCover 1748 2480 (Img.src 9 9))) ∧
      Part001.encodedOf lytOther (Img.src 9 9)
        = jpegEncode 95 (withMetadata adobeICC 300
            (Img.resizeCover 1748 2480 (Img.src 9 9)))) :=
  ⟨by decide, by decide, by decide, by decide,
    claim10_unknown_layout_single_resize lytOther (Img.src 9 9)
      (by decide) (by decide) (by decide) (by decide)⟩

/-- C5 counterexample: for a 10 by 19 source against target ratio 2/3 the
mismatch exceeds the tolerance and the computed target width is 13, but
the pad step adds `round(3/2) = 2` pixels on each side, so the padded
width is 14, not the computed target 13; the odd remainder pixel is not
assigned to one trailing side — both sides are rounded up. -/
theorem claim5_counterexample_odd_pad_overshoots :
    (padPlan 10 19 (2/3)).applied = true ∧
    (padPlan 10 19 (2/3)).newW = 13 ∧
    (padPlan 10 19 (2/3)).padX = 2 ∧
    (10 : ℤ) + 2 * (padPlan 10 19 (2/3)).padX = 14 ∧
    (10 : ℤ) + 2 * (padPlan 10 19 (2/3)).padX ≠ (padPlan 10 19 (2/3)).newW := by
  unfold padPlan jsRound
  norm_num [Int.floor_eq_iff, lt_abs, abs_lt]

/-- Doubling the JavaScript rounding of a half-integer: for an integer
total `d`, the pad `round(d / 2)` applied to both sides adds `d` pixels
when `d` is even and `d + 1` pixels when `d` is odd. -/
theorem two_mul_jsRound_half (d : ℤ) :
    2 * jsRound ((d : ℚ) / 2) = d + d % 2 := by
  rcases Int.even_or_odd d with ⟨k, hk⟩ | ⟨k, hk⟩
  · subst hk
    have h1 : ((k + k : ℤ) : ℚ) / 2 + 1/2 = (k : ℚ) + 1/2 := by push_cast; ring
    have h2 : jsRound (((k + k : ℤ) : ℚ) / 2) = k := by
      rw [jsRound, h1, Int.floor_int_add]
      norm_num
    rw [h2]
    omega
  · subst hk
    have h1 : ((2 * k + 1 : ℤ) : ℚ) / 2 + 1/2 = (k : ℚ) + 1 := by push_cast; ring
    have h2 : jsRound (((2 * k + 1 : ℤ) : ℚ) / 2) = k + 1 := by
      rw [jsRound, h1]
      have : ((k : ℚ) + 1) = ((k + 1 : ℤ) : ℚ) := by push_cast; ring
      rw [this, Int.floor_intCast]
    rw [h2]
    omega

/-- Total growth of one dimension under the symmetric pad: with target
dimension `n` at least the current dimension `x`, the padded dimension
`x + 2 * max 0 (round((n - x) / 2))` equals `n` plus the parity of the
total pad. -/
theorem pad_side_total (x : Nat) (n : ℤ) (hx : (x : ℤ) ≤ n) :
    (x : ℤ) + 2 * max 0 (jsRound (((n : ℚ) - (x : ℚ)) / 2))
      = n + (n - (x : ℤ)) % 2 := by
  have hcast : ((n - (x : ℤ) : ℤ) : ℚ) = (n : ℚ) - (x : ℚ) := by push_cast; ring
  have h := two_mul_jsRound_half (n - (x : ℤ))
  rw [hcast] at h
  have hnn : 0 ≤ jsRound (((n : ℚ) - (x : ℚ)) / 2) := by
    have hq : ((x : ℤ) : ℚ) ≤ ((n : ℤ) : ℚ) := by exact_mod_cast hx
    rw [jsRound]
    apply Int.floor_nonneg.mpr
    push_cast at hq ⊢
    linarith
  rw [max_eq_right hnn]
  omega

/-- C5 amended: when the aspect mismatch exceeds the 0.01 tolerance the
pad step grows height if the current aspect exceeds the target and width
otherwise, keeping the other dimension unchanged; the pad is exactly
symmetric (the same `round(total / 2)` on both sides), so the padded
dimension equals the computed target dimension when the total pad is even
and exceeds it by exactly one pixel when the total pad is odd — the odd
remainder pixel is never assigned to a single trailing side. -/
theorem claim5_amended_symmetric_pad_with_parity_overshoot (w h : Nat)
    (t : ℚ) (ht : 0 < t) (hh : 0 < h)
    (hmis : |(w : ℚ) / (h : ℚ) - t| > 1/100) :
    (padPlan w h t).applied = true ∧
    ((w : ℚ) / (h : ℚ) > t →
      (padPlan w h t).padX = 0 ∧
      (padPlan w h t).newW = (w : ℤ) ∧
      (h : ℤ) ≤ (padPlan w h t).newH ∧
      (h : ℤ) + 2 * (padPlan w h t).padY
        = (padPlan w h t).newH + ((padPlan w h t).newH - (h : ℤ)) % 2) ∧
    (¬ (w : ℚ) / (h : ℚ) > t →
      (padPlan w h t).padY = 0 ∧
      (padPlan w h t).newH = (h : ℤ) ∧
      (w : ℤ) ≤ (padPlan w h t).newW ∧
      (w : ℤ) + 2 * (padPlan w h t).padX
        = (padPlan w h t).newW + ((padPlan w h t).newW - (w : ℤ)) % 2) := by
  have hQh : (0 : ℚ) < (h : ℚ) := by exact_mod_cast hh
  simp only [padPlan, if_pos hmis]
  by_cases hrt : (w : ℚ) / (h : ℚ) > t
  · simp only [if_pos hrt]
    refine ⟨trivial, fun _ => ⟨?_, trivial, ?_, ?_⟩, fun hc => absurd hrt hc⟩
    · have hz : (((w : ℤ) : ℚ) - (w : ℚ)) / 2 = 0 := by push_cast; ring
      rw [hz]
      rw [jsRound]
      norm_num
    · rw [jsRound]
      apply Int.le_floor.mpr
      have h1 : t * (h : ℚ) < (w : ℚ) := (lt_div_iff₀ hQh).mp hrt
      have h2 : (h : ℚ) < (w : ℚ) / t := by
        rw [lt_div_iff₀ ht]
        linarith [mul_comm t (h : ℚ)]
      push_cast
      linarith
    · apply pad_side_total
      rw [jsRound]
      apply Int.le_floor.mpr
      have h1 : t * (h : ℚ) < (w : ℚ) := (lt_div_iff₀ hQh).mp hrt
      have h2 : (h : ℚ) < (w : ℚ) / t := by
        rw [lt_div_iff₀ ht]
        linarith [mul_comm t (h : ℚ)]
      push_cast
      linarith
  · simp only [if_neg hrt]
    refine ⟨trivial, fun hc => absurd hc hrt, fun _ => ⟨?_, trivial, ?_, ?_⟩⟩
    · have hz : (((h : ℤ) : ℚ) - (h : ℚ)) / 2 = 0 := by push_cast; ring
      rw [hz]
      rw [jsRound]
      norm_num
    · rw [jsRound]
      apply Int.le_floor.mpr
      have hlt : (w : ℚ) / (h : ℚ) < t := by
        rcases lt_trichotomy ((w : ℚ) / (h : ℚ)) t with hlt | heq | hgt
        · exact hlt
        · rw [heq] at hmis; simp at hmis
          exact absurd hmis (by norm_num)
        · exact absurd hgt hrt
      have h1 : (w : ℚ) < t * (h : ℚ) := (div_lt_iff₀ hQh).mp hlt
      push_cast
      linarith [mul_comm t (h : ℚ)]
    · apply pad_side_total
      rw [jsRound]
      apply Int.le_floor.mpr
      have hlt : (w : ℚ) / (h : ℚ) < t := by
        rcases lt_trichotomy ((w : ℚ) / (h : ℚ)) t with hlt | heq | hgt
        · exact hlt
        · rw [heq] at hmis; simp at hmis
          exact absurd hmis (by norm_num)
        · exact absurd hgt hrt
      have h1 : (w : ℚ) < t * (h : ℚ) := (div_lt_iff₀ hQh).mp hlt
      push_cast
      linarith [mul_comm t (h : ℚ)]

/-- Witness for the amended C5 at the concrete input 10 by 19 against
target 2/3 (total horizontal pad 3, an odd total). -/
theorem claim5_amended_symmetric_pad_with_parity_overshoot_witness :
    (0 : ℚ) < 2/3 ∧ (0 : Nat) < 19 ∧ |(10 : ℚ) / (19 : ℚ) - 2/3| > 1/100 ∧
    ((padPlan 10 19 (2/3)).applied = true ∧
      ((10 : ℚ) / (19 : ℚ) > 2/3 →
        (padPlan 10 19 (2/3)).padX = 0 ∧
        (padPlan 10 19 (2/3)).newW = (10 : ℤ) ∧
        (19 : ℤ) ≤ (padPlan 10 19 (2/3)).newH ∧
        (19 : ℤ) + 2 * (padPlan 10 19 (2/3)).padY
          = (padPlan 10 19 (2/3)).newH
            + ((padPlan 10 19 (2/3)).newH - (19 : ℤ)) % 2) ∧
      (¬ (10 : ℚ) / (19 : ℚ) > 2/3 →
        (padPlan 10 19 (2/3)).padY = 0 ∧
        (padPlan 10 19 (2/3)).newH = (19 : ℤ) ∧
        (10 : ℤ) ≤ (padPlan 10 19 (2/3)).newW ∧
        (10 : ℤ) + 2 * (padPlan 10 19 (2/3)).padX
          = (padPlan 10 19 (2/3)).newW
            + ((padPlan 10 19 (2/3)).newW - (10 : ℤ)) % 2)) :=
  ⟨by norm_num, by norm_num, by norm_num [lt_abs],
    claim5_amended_symmetric_pad_with_parity_overshoot 10 19 (2/3)
      (by norm_num) (by norm_num) (by norm_num [lt_abs])⟩
